import Mathlib

/-!
Shallow embedding of the StrataLines end-to-end verification scripts
(`verification/*.py`, Playwright-based browser probes) together with proofs
about the properties their specification states: browser-teardown discipline,
failure artifacts, process exit codes, waiting discipline, step-abort policy,
the Add-Place step sequence, geocoding request interception, artifact naming,
and the GPX fixture file guard.

Each script is sequential straight-line code with exception handlers, so it is
embedded as a list of effectful steps (`Step`) plus a trace function that maps
a failure point (`Option Nat`: `none` for a fully successful run, `some i` for
a run whose step `i` raises) to the list of steps that actually execute,
hand-compiled from the script's `try`/`except`/`finally` structure.  Network
interception handlers are pure functions from the request URL and query to a
route action and are embedded directly.
-/

namespace StrataLines

/-- Step constructors mirror the Playwright operations the scripts perform:
navigation, bounded selector waits (`wait_for_selector`/`expect ... to_be_visible`
with a millisecond timeout; Playwright's defaults are 30000 for
`wait_for_selector` and 5000 for `expect`), fixed-duration sleeps
(`time.sleep` / `page.wait_for_timeout`), clicks, fills, key presses, file
uploads (`set_input_files`), screenshot captures, and `browser.close()`. -/
inductive Step where
  | goto (url : String)
  | waitFor (sel : String) (timeoutMs : Nat)
  | sleep (ms : Nat)
  | click (sel : String)
  | fill (sel : String) (text : String)
  | press (key : String)
  | upload (sel : String) (file : String)
  | shoot (path : String)
  | close
deriving DecidableEq, Repr

/-- Test for the teardown step `browser.close()`. -/
def isClose : Step → Bool
  | Step.close => true
  | _ => false

/-- Test for an artifact capture (`page.screenshot`). -/
def isShot : Step → Bool
  | Step.shoot _ => true
  | _ => false

/-- Test for a fixed-duration sleep. -/
def isSleep : Step → Bool
  | Step.sleep _ => true
  | _ => false

/-- Test that a polling wait carries a positive (finite, explicit) bound;
non-wait steps pass vacuously. -/
def waitHasBound : Step → Bool
  | Step.waitFor _ t => decide (0 < t)
  | _ => true

/-- Number of `browser.close()` invocations in an executed trace. -/
def closeCount (t : List Step) : Nat := t.countP isClose

/-- Number of artifact files (screenshots) written by an executed trace. -/
def artifactCount (t : List Step) : Nat := t.countP isShot

/-- Index of the first occurrence of a step in a trace. -/
def stepIdx (t : List Step) (s : Step) : Nat := t.findIdx (fun x => decide (x = s))

/-- Last executed step of a trace, if any. -/
def lastStep : List Step → Option Step
  | [] => none
  | [a] => some a
  | _ :: b :: t => lastStep (b :: t)

/-- Path written by a step, when the step is a screenshot capture. -/
def shotPath? : Step → Option String
  | Step.shoot p => some p
  | _ => none

/-- Paths of the artifact files an executed trace writes, in write order. -/
def shotPaths (t : List Step) : List String := t.filterMap shotPath?

/-! ## verify_changes.py -/

/-- Add-Place leading sequence of `verify_changes.verify_places`
(verify_changes.py lines 10-48): navigate, wait up to 10s for the text
"Add Files", click "Add Place", wait up to 5s for the search input, fill it
with "London", fixed 2s sleep (`page.wait_for_timeout(2000)`), wait up to 10s
for a result item `li`, click it, wait up to 5s for `div[role='listitem']`. -/
def vcLead : List Step :=
  [Step.goto "http://localhost:3000",
   Step.waitFor "text=Add Files" 10000,
   Step.click "text=Add Place",
   Step.waitFor "input[placeholder*='Type to search']" 5000,
   Step.fill "input[placeholder*='Type to search']" "London",
   Step.sleep 2000,
   Step.waitFor "li" 10000,
   Step.click "li",
   Step.waitFor "div[role='listitem']" 5000]

/-- Screenshots taken by the inner `except` handlers of `verify_places` before
the exception is re-raised, keyed by the index of the raising step in
`vcLead`: the app-load wait (index 1) captures timeout.png, the search-result
wait and click (indices 6 and 7, one `try` block) capture search_fail.png, and
the list-update wait (index 8) captures add_fail.png.  All other raising steps
have no inner handler. -/
def vcInnerHandler : Nat → List Step
  | 1 => [Step.shoot "verification/timeout.png"]
  | 6 => [Step.shoot "verification/search_fail.png"]
  | 7 => [Step.shoot "verification/search_fail.png"]
  | 8 => [Step.shoot "verification/add_fail.png"]
  | _ => []

/-- Page-state observations that steer the soft-checked (non-raising) branches
of `verify_places` lines 50-140: whether the Export button exists and is
disabled, whether the export menu opens within 3s, whether the Select button
exists, whether its checkbox is visible, whether the Advanced Mode toggle
exists, and whether the map container reports a bounding box. -/
structure VCFlags where
  exportFound : Bool
  exportDisabled : Bool
  menuOpens : Bool
  selectFound : Bool
  checkboxVisible : Bool
  advancedFound : Bool
  bboxSome : Bool
deriving DecidableEq, Repr

/-- Tail of `verify_places` (verify_changes.py lines 50-140): the Export,
Multi-Select, Global Settings and Hover checks.  Every failed soft check is
logged (and in the export-menu case captured to menu_fail.png) and the
function continues with the next check; only the `wait_for_selector` calls can
raise.  The export-menu wait executes in both branches: when the menu does not
open within 3s the timeout is caught and menu_fail.png is captured. -/
def vcTail (f : VCFlags) : List Step :=
  [Step.waitFor "text=Places" 30000]
  ++ (if f.exportFound then
        (if f.exportDisabled then
          [Step.shoot "verification/disabled_export.png"]
         else
          [Step.click "button:has-text('Export')", Step.waitFor "text=GeoJSON" 3000]
          ++ (if f.menuOpens then
                [Step.shoot "verification/export_menu.png", Step.click "body"]
              else
                [Step.shoot "verification/menu_fail.png"]))
      else [])
  ++ (if f.selectFound then
        [Step.click "button:has-text('Select')", Step.waitFor "text=0 Selected" 30000]
        ++ (if f.checkboxVisible then
              [Step.click "input[type='checkbox']", Step.waitFor "text=1 Selected" 30000,
               Step.shoot "verification/multi_select.png"]
            else [])
        ++ [Step.click "button:has-text('Cancel')"]
      else [])
  ++ (if f.advancedFound then
        [Step.click "text=Advanced Mode", Step.waitFor "text=Text Styling" 30000,
         Step.shoot "verification/global_settings.png"]
      else [])
  ++ (if f.bboxSome then
        [Step.click "mouse-move-map-center", Step.sleep 500]
      else [])

/-- Full body of `verify_places` as run by `__main__`. -/
def vcBody (f : VCFlags) : List Step := vcLead ++ vcTail f

/-- Executed trace of a `verify_changes.py` run.  The `__main__` block wraps
`verify_places(page)` in `try`/`except`/`finally`: a raising failure at step
`i` executes the steps before it, then the inner handler's screenshots, then
the outer handler's error.png capture, then the `finally` block's
`browser.close()`.  A fully successful run executes the whole body and then
closes. -/
def vcTrace (f : VCFlags) : Option Nat → List Step
  | none => vcBody f ++ [Step.close]
  | some i =>
      (vcBody f).take i ++
        (vcInnerHandler i ++ [Step.shoot "verification/error.png", Step.close])

/-- Process exit status of `verify_changes.py`: the `__main__` handler catches
every exception and does not re-raise, so the interpreter always exits 0. -/
def vcExit : Option Nat → Nat := fun _ => 0

/-- Flags of a run in which every soft check succeeds. -/
def happyFlags : VCFlags :=
  ⟨true, false, true, true, true, true, true⟩

/-- Flags of a run in which the export menu fails to open within 3s while
everything else succeeds. -/
def menuFailFlags : VCFlags :=
  ⟨true, false, false, true, true, true, true⟩

/-! ## verify_place_editing.py -/

/-- Body of `verify_place_editing.run` (verify_place_editing.py lines 4-83),
which ends in `browser.close()` with no `try`/`finally` around the steps.
The double-clicks are embedded as clicks; the `page.evaluate` map-size query
performs no browser effect and is elided; the guarded Edit-Place wait (which
retries once after an offset click, neither attempt capturing a screenshot or
closing the browser) is embedded as a single wait. -/
def peBody : List Step :=
  [Step.goto "http://localhost:3000",
   Step.waitFor "button:has-text('Add Place')" 30000,
   Step.shoot "verification/step1_before_add.png",
   Step.click "button:has-text('Add Place')",
   Step.waitFor "text=Search Location" 30000,
   Step.shoot "verification/step2_after_add.png",
   Step.fill "input[placeholder*='Type to search']" "London",
   Step.waitFor "li:has-text('London')" 10000,
   Step.click "li:has-text('London')",
   Step.waitFor "div:has-text('London')" 30000,
   Step.click "span:has-text('London')",
   Step.sleep 3000,
   Step.click "map-center",
   Step.waitFor "text=Edit Place" 5000,
   Step.fill "Title input" "New London",
   Step.press "Enter",
   Step.waitFor "span:has-text('New London')" 5000,
   Step.shoot "verification/verification.png",
   Step.close]

/-- Executed trace of a `verify_place_editing.py` run: with no handler and no
`finally`, a failure at step `i` executes only the steps before `i` and the
exception propagates out of `run`. -/
def peTrace : Option Nat → List Step
  | none => peBody
  | some i => peBody.take i

/-! ## verify_track_places_ui.py -/

/-- Body of `verify_track_places_ui.run` (verify_track_places_ui.py lines
4-54), which ends in `browser.close()` with no `try`/`finally` around the
steps; only the Test-Track wait is guarded, by a handler that captures
error.png and re-raises. -/
def tpuBody : List Step :=
  [Step.goto "http://localhost:3000",
   Step.waitFor "text=Add Files" 30000,
   Step.upload "data-testid=hidden-file-input" "verification/sample.gpx",
   Step.waitFor "text=Test Track" 10000,
   Step.click "title=Manage Places",
   Step.waitFor "text=Places:" 5000,
   Step.click "title=Add Start Place",
   Step.waitFor "title=Remove Start Place" 5000,
   Step.shoot "verification/track_places_ui.png",
   Step.close]

/-- Executed trace of a `verify_track_places_ui.py` run: a failure at the
Test-Track wait (index 3) additionally captures error.png before re-raising;
in every failing case `browser.close()` is never reached. -/
def tpuTrace : Option Nat → List Step
  | none => tpuBody
  | some i =>
      tpuBody.take i ++
        (if i = 3 then [Step.shoot "verification/error.png"] else [])

/-! ## verify_track_places.py -/

/-- Body of `verify_track_places.run` (verify_track_places.py): the whole
scenario sits in a `try` whose `except` prints and re-raises and whose
`finally` calls `browser.close()`.  The Test-Track wait (index 3) is guarded
by an inner handler that captures step2_track_not_found.png and re-raises.
The final `to_have_class` assertion on the pin icon is embedded as a wait on
the orange-text class. -/
def vtpBody : List Step :=
  [Step.goto "http://localhost:3000",
   Step.waitFor "text=StrataLines" 10000,
   Step.upload "input[type='file']" "test_track.gpx",
   Step.waitFor "text=Test Track" 10000,
   Step.shoot "verification/step2_track_found.png",
   Step.waitFor "button[title='Manage Places']" 5000,
   Step.click "button[title='Manage Places']",
   Step.waitFor "text=Places:" 5000,
   Step.waitFor "button[title='Add Start Place']" 5000,
   Step.click "button[title='Add Start Place']",
   Step.waitFor "button[title='Remove Start Place']" 5000,
   Step.click "button[title='Add All']",
   Step.waitFor "button[title='Remove Middle Place']" 5000,
   Step.waitFor "button[title='Remove End Place']" 5000,
   Step.waitFor "class=text-orange-400" 5000,
   Step.shoot "verification/track_places.png"]

/-- Executed trace of a `verify_track_places.py` run: the `finally` block
guarantees exactly one `browser.close()` whatever happens; a failure at the
Test-Track wait additionally captures step2_track_not_found.png. -/
def vtpTrace : Option Nat → List Step
  | none => vtpBody ++ [Step.close]
  | some i =>
      vtpBody.take i ++
        ((if i = 3 then [Step.shoot "verification/step2_track_not_found.png"] else [])
          ++ [Step.close])

/-- Process exit status of `verify_track_places.py`: the `except` handler
re-raises, so any failure propagates and the interpreter exits non-zero. -/
def vtpExit : Option Nat → Nat
  | none => 0
  | some _ => 1

/-! ## verify_top_bottom.py -/

/-- Steps of one `add_place(name)` call in `verify_top_bottom.py`: click
Add Place, fill the search input with the place name, wait for the mocked
result in the dialog, click it, wait for the place to appear in the list. -/
def addPlaceSteps (name : String) : List Step :=
  [Step.click "button:has-text('Add Place')",
   Step.fill "input[placeholder*='Type to search']" name,
   Step.waitFor (".fixed li:has-text('" ++ name ++ "')") 30000,
   Step.click (".fixed li:has-text('" ++ name ++ "')"),
   Step.waitFor ("div[role='list'] >> text='" ++ name ++ "'") 30000]

/-- Starting index in `vtbBody` of each `add_place` call, paired with the
place name as it appears in the failure screenshot path (spaces already
replaced by underscores, as `name.replace(' ', '_')` does). -/
def vtbAddCalls : List (Nat × String) :=
  [(2, "Left_Blocker"), (7, "Right_Blocker"), (12, "Middle_Place"),
   (22, "Top_Blocker"), (27, "Bottom_Blocker"), (32, "Middle_Place")]

/-- Body of `verify_top_bottom.verify_top_bottom` (verify_top_bottom.py lines
82-134): navigation and the app-load wait run before the `try` block (indices
0 and 1); everything from the first `add_place` call onwards (index 2) runs
inside `try ... except: traceback.print_exc() ... finally: browser.close()`.
The `page.reload()` midway is embedded as a second navigation. -/
def vtbBody : List Step :=
  [Step.goto "http://localhost:3000",
   Step.waitFor "button:has-text('Add Place')" 30000]
  ++ addPlaceSteps "Left Blocker"
  ++ addPlaceSteps "Right Blocker"
  ++ addPlaceSteps "Middle Place"
  ++ [Step.click "div[role='list'] >> text='Middle Place'",
      Step.sleep 3000,
      Step.shoot "verification/top_bottom_test_1.png",
      Step.goto "http://localhost:3000",
      Step.waitFor "button:has-text('Add Place')" 30000]
  ++ addPlaceSteps "Top Blocker"
  ++ addPlaceSteps "Bottom Blocker"
  ++ addPlaceSteps "Middle Place"
  ++ [Step.click "div[role='list'] >> text='Middle Place'",
      Step.sleep 3000,
      Step.shoot "verification/top_bottom_test_2.png"]

/-- Screenshot captured by the `except` handler inside `add_place` when the
raising step belongs to one of its calls (the handler writes
error_adding_<name>.png and re-raises). -/
def vtbHandler (i : Nat) : List Step :=
  (vtbAddCalls.find? (fun p => decide (p.1 ≤ i) && decide (i < p.1 + 5))).elim []
    (fun p => [Step.shoot ("verification/error_adding_" ++ p.2 ++ ".png")])

/-- Executed trace of a `verify_top_bottom.py` run: a failure before the `try`
block (index < 2) propagates with no handler and no close; a failure inside it
runs the `add_place` handler's screenshot (when applicable), is swallowed by
the outer `except`, and still reaches the `finally` close. -/
def vtbTrace : Option Nat → List Step
  | none => vtbBody ++ [Step.close]
  | some i =>
      if i < 2 then vtbBody.take i
      else vtbBody.take i ++ (vtbHandler i ++ [Step.close])

/-- Process exit status of `verify_top_bottom.py`: failures before the `try`
block propagate (exit 1); failures inside it are swallowed by
`traceback.print_exc()`, so the interpreter exits 0 exactly as it does on full
completion. -/
def vtbExit : Option Nat → Nat
  | none => 0
  | some i => if i < 2 then 1 else 0

/-! ## verify_places_rendering.py -/

/-- Process exit status of `verify_places_rendering.py` (lines 89-93): every
step runs inside a `try` whose `except` prints, captures error.png and does
not re-raise, so the interpreter exits 0 on every outcome. -/
def vprExit : Option Nat → Nat
  | none => 0
  | some _ => 0

/-! ## verify_places_ui.py -/

/-- Body of `verify_places_ui.verify_places_ui` (verify_places_ui.py lines
4-37): navigate, wait up to 10s for the text "StrataLines", then the default
5s `expect` visibility waits for the Places heading, the empty-state text and
the Add Place button, click Add Place, sleep a fixed 1s, and capture
places_ui.png.  The dialog-accept listener registration performs no browser
step and is elided. -/
def puBody : List Step :=
  [Step.goto "http://localhost:3000",
   Step.waitFor "text=StrataLines" 10000,
   Step.waitFor "heading=Places" 5000,
   Step.waitFor "text=No places added yet." 5000,
   Step.waitFor "button=Add Place" 5000,
   Step.click "button=Add Place",
   Step.sleep 1000,
   Step.shoot "verification/places_ui.png"]

/-- Executed trace of a `verify_places_ui.py` run (verify_places_ui.py lines
39-52): the `__main__` block wraps the body in `try`/`except`/`finally`; a
raising failure at step `i` executes the steps before it, then the handler
captures error.png and re-raises, and the `finally` block closes the
browser. -/
def puTrace : Option Nat → List Step
  | none => puBody ++ [Step.close]
  | some i => puBody.take i ++ [Step.shoot "verification/error.png", Step.close]

/-! ## Request interception (verify_positioning.py / verify_top_bottom.py) -/

/-- Containment of a pattern at the head of a character list. -/
def subAt : List Char → List Char → Bool
  | _, [] => true
  | [], _ :: _ => false
  | a :: as, b :: bs => a == b && subAt as bs

/-- Containment of a pattern anywhere in a character list. -/
def hasSub : List Char → List Char → Bool
  | [], n => subAt [] n
  | a :: as, n => subAt (a :: as) n || hasSub as n

/-- Substring test mirroring Python's `needle in haystack`. -/
def strContains (haystack needle : String) : Bool :=
  hasSub haystack.toList needle.toList

/-- Mock geocoding entry as defined in the scripts' `mocks` tables: latitude
and longitude strings, a display name, and the `address.city` value that the
app uses as the place title. -/
structure MockPlace where
  lat : String
  lon : String
  displayName : String
  city : String
deriving DecidableEq, Repr

/-- Synthetic geocoding result as built inside `handle_route`: the mock's
fields plus the handler's fixed bounding box. -/
structure GeoResult where
  lat : String
  lon : String
  displayName : String
  city : String
  boundingbox : List String
deriving DecidableEq, Repr

/-- Result entry built from a matched mock and the handler's bounding box. -/
def mkResult (bbox : List String) (d : MockPlace) : GeoResult :=
  ⟨d.lat, d.lon, d.displayName, d.city, bbox⟩

/-- URL fragment identifying the third-party place-search API. -/
def nominatimApi : String := "nominatim.openstreetmap.org/search"

/-- Mock table of `verify_positioning.py`, in Python dict insertion order. -/
def posMocks : List (String × MockPlace) :=
  [("Tower of London",
    ⟨"51.5081", "-0.0759", "Tower of London, London, UK", "Tower of London"⟩),
   ("Tower Bridge",
    ⟨"51.5055", "-0.0754", "Tower Bridge, London, UK", "Tower Bridge"⟩),
   ("HMS Belfast",
    ⟨"51.5066", "-0.0813", "HMS Belfast, London, UK", "HMS Belfast"⟩)]

/-- Fixed bounding box used by `verify_positioning.py`'s handler. -/
def posBbox : List String := ["51.5", "51.6", "-0.1", "0.0"]

/-- Action taken on an intercepted request: fulfill with a synthetic response
(`route.fulfill`) or pass through unmodified (`route.continue_`). -/
inductive RouteAction where
  | fulfill (status : Nat) (contentType : String) (body : List GeoResult)
  | continue_
deriving DecidableEq, Repr

/-- Response-body loop of `handle_route`: `result` starts empty; the first
mock whose key occurs in the query replaces it with a singleton and the loop
breaks; later entries are never inspected. -/
def routeResult (bbox : List String) (mocks : List (String × MockPlace))
    (q : String) : List GeoResult :=
  match mocks with
  | [] => []
  | m :: rest =>
      if strContains q m.1 then [mkResult bbox m.2]
      else routeResult bbox rest q

/-- Embedding of `handle_route` (verify_positioning.py lines 35-63 and
verify_top_bottom.py lines 51-79, identical structure): requests whose URL
contains the place-search API fragment are fulfilled with status 200,
content type application/json and the loop's body computed from the request's
`q` parameter; every other request is passed through.  The extraction of `q`
from the URL by `urllib.parse.parse_qs` is standard-library behaviour and is
embedded by passing the query as a separate argument. -/
def handle_route (bbox : List String) (mocks : List (String × MockPlace))
    (url q : String) : RouteAction :=
  if strContains url nominatimApi then
    RouteAction.fulfill 200 "application/json" (routeResult bbox mocks q)
  else RouteAction.continue_

/-- Modelled from the spec: the response selection the spec describes, "a
deterministic JSON response keyed by query substring" containing the first
mock entry whose key is a substring of the query, or nothing when no key
matches.  Stated with `List.find?` for comparison against the source loop
`routeResult`. -/
def specKeyed (bbox : List String) (mocks : List (String × MockPlace))
    (q : String) : List GeoResult :=
  (mocks.find? (fun e => strContains q e.1)).elim [] (fun e => [mkResult bbox e.2])

/-! ## Spec-side step sequences -/

/-- Modelled from the spec: the Add-Place example scenario's step sequence
exactly as the specification words it (navigate to base URL, wait up to 10s
for an element with accessible name "Add Place", click it, wait up to 5s for a
search input, fill it with "London", wait up to 10s for at least one result
item, click the first result, wait up to 5s for a list item containing
"London"). -/
def addPlaceSpecSteps : List Step :=
  [Step.goto "http://localhost:3000",
   Step.waitFor "Add Place" 10000,
   Step.click "Add Place",
   Step.waitFor "search input" 5000,
   Step.fill "search input" "London",
   Step.waitFor "result item" 10000,
   Step.click "first result",
   Step.waitFor "list item containing London" 5000]

/-- Modelled from the amended claim: the Add-Place sequence actually performed
by `verify_changes.verify_places` — the 10s wait targets the text "Add Files"
(not "Add Place"), a fixed 2s sleep follows the fill, and the final 5s wait
targets `div[role='listitem']` without filtering on "London". -/
def vcLeadAmended : List Step :=
  [Step.goto "http://localhost:3000",
   Step.waitFor "text=Add Files" 10000,
   Step.click "text=Add Place",
   Step.waitFor "input[placeholder*='Type to search']" 5000,
   Step.fill "input[placeholder*='Type to search']" "London",
   Step.sleep 2000,
   Step.waitFor "li" 10000,
   Step.click "li",
   Step.waitFor "div[role='listitem']" 5000]

/-! ## Artifact path catalogs -/

/-- Screenshot paths that `verify_changes.py` can write, one literal per
capture site. -/
def vcArtifactPaths : List String :=
  ["verification/timeout.png", "verification/search_fail.png",
   "verification/add_fail.png", "verification/disabled_export.png",
   "verification/export_menu.png", "verification/menu_fail.png",
   "verification/multi_select.png", "verification/global_settings.png",
   "verification/error.png"]

/-- Screenshot paths that `verify_places_ui.py` can write. -/
def puArtifactPaths : List String :=
  ["verification/places_ui.png", "verification/error.png"]

/-- Screenshot paths that `verify_places_rendering.py` can write. -/
def vprArtifactPaths : List String :=
  ["verification/initial_load.png", "verification/add_place_dialog.png",
   "verification/place_added.png", "verification/error.png"]

/-- Two artifact catalogs share a path exactly when a capture from one
scenario can overwrite a file written by the other. -/
def sharesPath (a b : List String) : Bool :=
  a.any (fun p => b.any (fun q => decide (p = q)))

/-! ## verify_track_integration.py file effects -/

/-- Write of a file: later writes to the same path shadow earlier ones. -/
def fsWrite (fs : List (String × String)) (p c : String) : List (String × String) :=
  (p, c) :: fs

/-- Current content of a file, if it exists. -/
def fsLookup (fs : List (String × String)) (p : String) : Option String :=
  (fs.find? (fun e => decide (e.1 = p))).map (fun e => e.2)

/-- Path of the GPX fixture used by `verify_track_integration.py`. -/
def gpxPath : String := "test_track.gpx"

/-- Exact fixture content written by `verify_track_integration.py` when the
file is missing. -/
def gpxContent : String :=
  "<?xml version=\"1.0\" encoding=\"UTF-8\"?>\n<gpx version=\"1.1\" creator=\"StrataLines Test\">\n  <trk>\n    <name>Test Track</name>\n    <trkseg>\n      <trkpt lat=\"51.5074\" lon=\"-0.1278\"></trkpt>\n      <trkpt lat=\"51.5080\" lon=\"-0.1280\"></trkpt>\n      <trkpt lat=\"51.5090\" lon=\"-0.1290\"></trkpt>\n    </trkseg>\n  </trk>\n</gpx>"

/-- Fixture guard of `verify_track_integration.verify_track_integration`
(lines 44-60): `if not os.path.exists("test_track.gpx")`, write the fixture;
otherwise leave the filesystem untouched. -/
def ensureFixture (fs : List (String × String)) : List (String × String) :=
  match fsLookup fs gpxPath with
  | some _ => fs
  | none => fsWrite fs gpxPath gpxContent

/-- File effects of one `verify_track_integration.py` run: if control reaches
the upload preparation it runs the fixture guard, and the run ends with either
the success screenshot or the `except` handler's error screenshot.  No other
statement of the script writes a file. -/
def vtiRun (fs : List (String × String)) (reached success : Bool) :
    List (String × String) :=
  if success then
    fsWrite (if reached then ensureFixture fs else fs)
      "verification/track_integration_success.png" "screenshot"
  else
    fsWrite (if reached then ensureFixture fs else fs)
      "verification/error.png" "screenshot"

/-! ## Helper lemmas -/

/-- Appending a final element makes it the last executed step. -/
theorem lastStep_concat (l : List Step) (a : Step) : lastStep (l ++ [a]) = some a := by
  induction l with
  | nil => rfl
  | cons x xs ih =>
      cases xs with
      | nil => rfl
      | cons y ys => exact ih

/-- Refinement of the source loop by the spec-side selection: the
first-match-and-break loop of `handle_route` computes exactly the
`List.find?`-based selection the spec describes. -/
theorem routeResult_eq_specKeyed (bbox : List String)
    (mocks : List (String × MockPlace)) (q : String) :
    routeResult bbox mocks q = specKeyed bbox mocks q := by
  induction mocks with
  | nil => rfl
  | cons m rest ih =>
      by_cases h : strContains q m.1 = true
      · simp [routeResult, specKeyed, List.find?_cons_of_pos _ h, h]
      · simp [routeResult, specKeyed, List.find?_cons_of_neg _ h, h] at ih ⊢
        exact ih

/-- Handler screenshots of `verify_top_bottom.add_place` never close the
browser. -/
theorem vtbHandler_closeCount (i : Nat) : (vtbHandler i).countP isClose = 0 := by
  unfold vtbHandler
  cases vtbAddCalls.find? fun p => decide (p.1 ≤ i) && decide (i < p.1 + 5) with
  | none => rfl
  | some p => rfl

/-- Writing one file leaves every other file's content unchanged. -/
theorem fsLookup_write_ne (fs : List (String × String)) (p' c p : String)
    (h : ¬ p' = p) : fsLookup (fsWrite fs p' c) p = fsLookup fs p := by
  unfold fsLookup fsWrite
  rw [List.find?_cons_of_neg _ (by simpa using h)]

/-! ## Claim theorems -/

/-- Claim C7: every intercepted request whose URL addresses the place-search
API is fulfilled with a deterministic JSON response (status 200,
application/json) whose body is selected from the fixed mock table purely by
substring match of the query — so the same query always yields the same body —
and every request not addressed to that API is passed through unmodified.
Stated for an arbitrary mock table and bounding box (both `handle_route`
handlers share this code shape) and for `verify_positioning.py`'s concrete
table. -/
theorem route_interception_contract (bbox : List String)
    (mocks : List (String × MockPlace)) (url q : String) :
    (handle_route bbox mocks url q =
      if strContains url nominatimApi then
        RouteAction.fulfill 200 "application/json" (specKeyed bbox mocks q)
      else RouteAction.continue_)
    ∧ (handle_route posBbox posMocks url q =
      if strContains url nominatimApi then
        RouteAction.fulfill 200 "application/json" (specKeyed posBbox posMocks q)
      else RouteAction.continue_) := by
  constructor
  · unfold handle_route
    split
    · rw [routeResult_eq_specKeyed]
    · rfl
  · unfold handle_route
    split
    · rw [routeResult_eq_specKeyed]
    · rfl

/-- Witness for C7: the mocked Nominatim search URL is fulfilled with the
Tower Bridge entry, and an unrelated application URL is passed through. -/
theorem route_interception_contract_witness :
    handle_route posBbox posMocks
        "https://nominatim.openstreetmap.org/search?q=Tower+Bridge&format=json"
        "Tower Bridge"
      = RouteAction.fulfill 200 "application/json"
          [⟨"51.5055", "-0.0754", "Tower Bridge, London, UK", "Tower Bridge", posBbox⟩]
    ∧ handle_route posBbox posMocks "http://localhost:3000/static/app.js" "Tower Bridge"
      = RouteAction.continue_ := by
  have h1 := (route_interception_contract posBbox posMocks
      "https://nominatim.openstreetmap.org/search?q=Tower+Bridge&format=json"
      "Tower Bridge").2
  have h2 := (route_interception_contract posBbox posMocks
      "http://localhost:3000/static/app.js" "Tower Bridge").2
  rw [h1, h2]
  constructor
  · decide
  · decide

/-- Claim C9: the synthetic response body is a list of length at most one; it
is exactly the first mock entry whose key occurs as a substring of the query
(the loop breaks at the first match), and the empty list when no key matches.
The concrete conjuncts instantiate this on `verify_positioning.py`'s table:
the query "Tower Bridge" skips the non-matching first key and returns the
second entry, and an unmatched query returns the empty list. -/
theorem route_result_first_match (bbox : List String)
    (mocks : List (String × MockPlace)) (q : String) :
    (routeResult bbox mocks q).length ≤ 1
    ∧ routeResult bbox mocks q = specKeyed bbox mocks q
    ∧ routeResult posBbox posMocks "Tower Bridge" =
        [⟨"51.5055", "-0.0754", "Tower Bridge, London, UK", "Tower Bridge", posBbox⟩]
    ∧ routeResult posBbox posMocks "Trafalgar Square" = [] := by
  refine ⟨?_, routeResult_eq_specKeyed .., by decide, by decide⟩
  rw [routeResult_eq_specKeyed]
  unfold specKeyed
  cases mocks.find? fun e => strContains q e.1 with
  | none => simp
  | some e => simp

/-- Witness for C9: a run of the first-match selection on a concrete query. -/
theorem route_result_first_match_witness :
    (routeResult posBbox posMocks "a photo of HMS Belfast").length ≤ 1 :=
  (route_result_first_match posBbox posMocks "a photo of HMS Belfast").1

/-- Counterexample to claim C4 as stated ("never as a fixed-duration sleep"):
both cited scenarios contain fixed-duration sleeps at async-dependent points —
`verify_changes.py` line 29 sleeps 2s between filling the search input and
consuming the results (`page.wait_for_timeout(2000)`), and
`verify_place_editing.py` line 44 sleeps 3s for the map zoom animation
(`time.sleep(3)`). -/
theorem fixed_sleeps_present :
    vcLead.any isSleep = true ∧ peBody.any isSleep = true := by decide

/-- Claim C4 (amended): the scripts implement most async-dependent steps as
polling waits that all carry an explicit positive bound, but they also contain
fixed-duration sleeps at async-dependent points: the 2s sleep after filling
the search input in `verify_changes.py` and the 3s post-zoom sleep in
`verify_place_editing.py` (`verify_top_bottom.py` sleeps 3s after each
double-click zoom as well). -/
theorem wait_bounds_and_sleeps :
    Step.sleep 2000 ∈ vcLead
    ∧ Step.sleep 3000 ∈ peBody
    ∧ Step.sleep 3000 ∈ vtbBody
    ∧ vcLead.all waitHasBound = true
    ∧ peBody.all waitHasBound = true
    ∧ vtbBody.all waitHasBound = true
    ∧ vtpBody.all waitHasBound = true
    ∧ tpuBody.all waitHasBound = true := by decide

/-- Counterexample to claim C6 as stated: the code's Add-Place sequence
differs from the claimed one — it contains a fixed 2s sleep the claimed
sequence lacks (so the lengths differ), and its 10s app-load wait targets the
text "Add Files", not an element named "Add Place". -/
theorem add_place_sequence_mismatch :
    vcLead.countP isSleep = 1
    ∧ addPlaceSpecSteps.countP isSleep = 0
    ∧ vcLead.length ≠ addPlaceSpecSteps.length
    ∧ vcLead[1]? = some (Step.waitFor "text=Add Files" 10000)
    ∧ strContains "text=Add Files" "Add Place" = false := by decide

/-- Claim C6 (amended): the Add-Place sequence of
`verify_changes.verify_places` is: navigate to the base URL, wait up to 10s
for the text "Add Files", click "Add Place" without a dedicated wait, wait up
to 5s for the search input, fill it with "London", sleep a fixed 2s, wait up
to 10s for a result item `li`, click it, wait up to 5s for
`div[role='listitem']` (not filtered on "London"); when every wait succeeds
the run raises no uncaught error, writes no failure-labelled artifact, and the
process exits 0. -/
theorem add_place_sequence_actual :
    vcLead = vcLeadAmended
    ∧ vcExit none = 0
    ∧ Step.shoot "verification/menu_fail.png" ∉ vcTrace happyFlags none
    ∧ Step.shoot "verification/error.png" ∉ vcTrace happyFlags none
    ∧ Step.shoot "verification/timeout.png" ∉ vcTrace happyFlags none := by decide

/-- Counterexample to claim C8 as stated: a failing `verify_changes.py` run
and a failing `verify_places_ui.py` run both write the path
verification/error.png (shown on the embedded traces of both scripts), so the
second capture overwrites the first scenario's file — artifacts are not
append-only across scenarios — and the shared name carries no scenario tag at
all (it is not of the form <scenario>_<label>.png). -/
theorem artifact_path_collision :
    "verification/error.png" ∈ shotPaths (vcTrace happyFlags (some 1))
    ∧ "verification/error.png" ∈ shotPaths (puTrace (some 1))
    ∧ "verification/error.png" ∈ vcArtifactPaths
    ∧ "verification/error.png" ∈ puArtifactPaths
    ∧ "verification/error.png" ∈ vprArtifactPaths
    ∧ strContains "verification/error.png" "verify_changes" = false
    ∧ strContains "verification/error.png" "verify_places_ui" = false := by decide

/-- Claim C8 (amended): every capture writes one file with a deterministic
literal path under verification/, the capture sites of a single scenario use
pairwise distinct paths, and every path a run's trace writes lies in that
scenario's fixed catalog (shown for representative `verify_changes.py` traces
and for every `verify_places_ui.py` outcome); but the paths are not tagged
with the scenario name, and distinct scenarios share the path
verification/error.png, so a capture can overwrite an artifact previously
written by another scenario. -/
theorem artifact_path_catalog :
    vcArtifactPaths.Nodup
    ∧ puArtifactPaths.Nodup
    ∧ vprArtifactPaths.Nodup
    ∧ sharesPath vcArtifactPaths puArtifactPaths = true
    ∧ sharesPath vcArtifactPaths vprArtifactPaths = true
    ∧ sharesPath puArtifactPaths vprArtifactPaths = true
    ∧ vcArtifactPaths.all (fun p => strContains p "verification/") = true
    ∧ puArtifactPaths.all (fun p => strContains p "verification/") = true
    ∧ (∀ p, p ∈ shotPaths (vcTrace happyFlags none) → p ∈ vcArtifactPaths)
    ∧ (∀ p, p ∈ shotPaths (vcTrace menuFailFlags none) → p ∈ vcArtifactPaths)
    ∧ (∀ p, p ∈ shotPaths (vcTrace happyFlags (some 1)) → p ∈ vcArtifactPaths)
    ∧ (∀ o : Option Nat, ∀ p, p ∈ shotPaths (puTrace o) → p ∈ puArtifactPaths) := by
  refine ⟨by decide, by decide, by decide, by decide, by decide, by decide,
    by decide, by decide, by decide, by decide, by decide, ?_⟩
  intro o p hp
  cases o with
  | none => exact (by decide : ∀ q, q ∈ shotPaths (puTrace none) → q ∈ puArtifactPaths) p hp
  | some i =>
      simp only [puTrace, shotPaths, List.filterMap_append, List.mem_append] at hp
      rcases hp with hp | hp
      · have hsub := (List.take_sublist i puBody).filterMap shotPath?
        have hbody : ∀ q, q ∈ shotPaths puBody → q ∈ puArtifactPaths := by decide
        exact hbody p (hsub.subset hp)
      · exact (by decide : ∀ q,
            q ∈ List.filterMap shotPath? [Step.shoot "verification/error.png", Step.close] →
              q ∈ puArtifactPaths) p hp

/-- Witness for C8 (amended): the error.png capture of a failing
`verify_places_ui.py` run lies in that scenario's catalog, and a happy-path
`verify_changes.py` capture lies in its catalog. -/
theorem artifact_path_catalog_witness :
    "verification/error.png" ∈ puArtifactPaths
    ∧ "verification/export_menu.png" ∈ vcArtifactPaths :=
  ⟨artifact_path_catalog.2.2.2.2.2.2.2.2.2.2.2 (some 1) "verification/error.png" (by decide),
   artifact_path_catalog.2.2.2.2.2.2.2.2.1 "verification/export_menu.png" (by decide)⟩

/-- Counterexample to claim C1 as stated: a `verify_place_editing.py` run
whose search-result wait (step 7) raises executes `browser.close()` zero
times, not exactly once, and a `verify_track_places_ui.py` run whose
Test-Track wait (step 3) raises likewise never reaches `browser.close()` —
both scripts place the close after the last step with no
`try`/`finally`. -/
theorem place_editing_failure_skips_close :
    closeCount (peTrace (some 7)) = 0
    ∧ closeCount (tpuTrace (some 3)) = 0
    ∧ closeCount (peTrace none) = 1 := by decide

/-- Claim C1 (amended): scripts that wrap the scenario in `try`/`finally`
(here `verify_track_places.py`) invoke `browser.close()` exactly once on every
outcome, but `verify_place_editing.py` and `verify_track_places_ui.py` invoke
it exactly once only on full success: any raising step skips it, leaving
teardown to the `sync_playwright` context exit. -/
theorem teardown_close_counts :
    closeCount (peTrace none) = 1
    ∧ (∀ i, i < peBody.length → closeCount (peTrace (some i)) = 0)
    ∧ closeCount (tpuTrace none) = 1
    ∧ (∀ i, i < tpuBody.length → closeCount (tpuTrace (some i)) = 0)
    ∧ (∀ o : Option Nat, closeCount (vtpTrace o) = 1) := by
  refine ⟨by decide, by decide, by decide, by decide, ?_⟩
  intro o
  cases o with
  | none => decide
  | some i =>
      show closeCount (vtpBody.take i ++ _) = 1
      unfold closeCount
      rw [List.countP_append]
      have h2 := (List.take_sublist i vtpBody).countP_le isClose
      have h3 : vtpBody.countP isClose = 0 := by decide
      have h4 : ((if i = 3 then [Step.shoot "verification/step2_track_not_found.png"] else [])
          ++ [Step.close]).countP isClose = 1 := by
        by_cases h : i = 3
        · rw [if_pos h]; decide
        · rw [if_neg h]; decide
      omega

/-- Witness for C1 (amended): a failure at the dialog wait of
`verify_place_editing.py` closes the browser zero times, while
`verify_track_places.py` closes it exactly once on that same failure
point. -/
theorem teardown_close_counts_witness :
    closeCount (peTrace (some 4)) = 0 ∧ closeCount (vtpTrace (some 1)) = 1 :=
  ⟨teardown_close_counts.2.1 4 (by decide),
   teardown_close_counts.2.2.2.2 (some 1)⟩

/-- Counterexample to claim C2 as stated: a `verify_track_places.py` run that
fails at the app-load wait (step 1) ends — with a non-zero exit, so it is a
failing run — having written zero artifact files: its outer `except` handler
only prints and re-raises. -/
theorem track_places_early_failure_no_artifact :
    artifactCount (vtpTrace (some 1)) = 0 ∧ vtpExit (some 1) = 1 := by decide

/-- Claim C2 (amended): every failing `verify_changes.py` run writes at least
one artifact (the `__main__` handler always captures error.png), but a failing
`verify_track_places.py` run writes an artifact only when the failure occurs
at the guarded Test-Track wait (step 3, whose handler captures a screenshot)
or after the mid-run success screenshot (step 4) has executed; failures during
navigation, the app-load wait, the upload, or the success screenshot itself
produce none. -/
theorem failure_artifact_coverage :
    (∀ (f : VCFlags) (i : Nat), 1 ≤ artifactCount (vcTrace f (some i)))
    ∧ (∀ i, i < 3 → artifactCount (vtpTrace (some i)) = 0)
    ∧ artifactCount (vtpTrace (some 3)) = 1
    ∧ artifactCount (vtpTrace (some 4)) = 0
    ∧ (∀ i, i < vtpBody.length → 4 < i → 1 ≤ artifactCount (vtpTrace (some i))) := by
  refine ⟨?_, by decide, by decide, by decide, by decide⟩
  intro f i
  unfold vcTrace artifactCount
  rw [List.countP_append, List.countP_append]
  have h : [Step.shoot "verification/error.png", Step.close].countP isShot = 1 := by decide
  omega

/-- Witness for C2 (amended): concrete failure points of both scripts. -/
theorem failure_artifact_coverage_witness :
    1 ≤ artifactCount (vcTrace happyFlags (some 0))
    ∧ artifactCount (vtpTrace (some 2)) = 0
    ∧ 1 ≤ artifactCount (vtpTrace (some 6)) :=
  ⟨failure_artifact_coverage.1 happyFlags 0,
   failure_artifact_coverage.2.1 2 (by decide),
   failure_artifact_coverage.2.2.2.2 6 (by decide) (by decide)⟩

/-- Counterexample to claim C3 as stated ("exits with status zero only on
full completion of all steps"): a `verify_top_bottom.py` run that fails at
step 2 — the first step inside its `try` block, far from completing the
40-step scenario — still exits 0, because the `except` handler swallows the
exception with `traceback.print_exc()`; `verify_places_rendering.py` likewise
exits 0 on a failure at its very first step. -/
theorem top_bottom_swallows_failure_exit_zero :
    vtbExit (some 2) = 0 ∧ 2 < vtbBody.length ∧ vprExit (some 0) = 0 := by decide

/-- Claim C3 (amended): the runner exits non-zero when a step failure
propagates uncaught (failures before the `try` block in `verify_top_bottom.py`
and every failing `verify_track_places.py` run, whose handler re-raises), and
exits zero on full completion; but `verify_top_bottom.py` and
`verify_places_rendering.py` swallow failures inside their `try` blocks and
then exit zero as well (still closing the browser via `finally`), so a zero
exit does not imply full completion. -/
theorem exit_code_contract :
    vtbExit none = 0
    ∧ (∀ i, i < 2 → vtbExit (some i) = 1)
    ∧ (∀ i, 2 ≤ i → vtbExit (some i) = 0 ∧ closeCount (vtbTrace (some i)) = 1)
    ∧ (∀ o : Option Nat, vprExit o = 0)
    ∧ (∀ i : Nat, vtpExit (some i) = 1) := by
  refine ⟨rfl, by decide, ?_, ?_, fun i => rfl⟩
  · intro i h
    constructor
    · show (if i < 2 then 1 else 0) = 0
      rw [if_neg (by omega)]
    · show closeCount (if i < 2 then vtbBody.take i
          else vtbBody.take i ++ (vtbHandler i ++ [Step.close])) = 1
      rw [if_neg (by omega)]
      unfold closeCount
      rw [List.countP_append, List.countP_append]
      have h1 : vtbBody.countP isClose = 0 := by decide
      have h2 := (List.take_sublist i vtbBody).countP_le isClose
      have h3 := vtbHandler_closeCount i
      have h4 : [Step.close].countP isClose = 1 := by decide
      omega
  · intro o; cases o <;> rfl

/-- Witness for C3 (amended): concrete failure points on both sides of the
`try` boundary of `verify_top_bottom.py`. -/
theorem exit_code_contract_witness :
    vtbExit (some 0) = 1 ∧ vtbExit (some 5) = 0 ∧ closeCount (vtbTrace (some 5)) = 1 :=
  ⟨exit_code_contract.2.1 0 (by decide),
   (exit_code_contract.2.2.1 5 (by decide)).1,
   (exit_code_contract.2.2.1 5 (by decide)).2⟩

/-- Counterexample to claim C5 as stated: in a `verify_changes.py` run whose
export menu fails to open within its 3s wait, the failure is captured with the
failure label menu_fail.png, yet the scenario does not abort — the later
Multi-Select step (clicking the Select button) still executes, strictly after
the failure capture. -/
theorem soft_failure_continues :
    Step.shoot "verification/menu_fail.png" ∈ vcTrace menuFailFlags none
    ∧ Step.click "button:has-text('Select')" ∈ vcTrace menuFailFlags none
    ∧ stepIdx (vcTrace menuFailFlags none) (Step.shoot "verification/menu_fail.png")
        < stepIdx (vcTrace menuFailFlags none) (Step.click "button:has-text('Select')") := by
  decide

/-- Claim C5 (amended): a step failure that raises an exception does abort the
remaining steps of `verify_changes.verify_places` — the executed body steps
are exactly a prefix of the body, the run captures at least one
failure-labelled artifact (the handler's error.png, possibly preceded by an
inner handler's screenshot), and the trace ends with teardown
(`browser.close()`); but soft-checked failures such as the export menu not
opening are captured and then the scenario continues with the remaining
steps. -/
theorem raising_failure_aborts (f : VCFlags) (i : Nat) :
    ((vcBody f).take i) <+: vcTrace f (some i)
    ∧ lastStep (vcTrace f (some i)) = some Step.close
    ∧ 1 ≤ artifactCount (vcTrace f (some i)) := by
  refine ⟨⟨_, rfl⟩, ?_, ?_⟩
  · show lastStep ((vcBody f).take i ++
        (vcInnerHandler i ++ [Step.shoot "verification/error.png", Step.close])) = some Step.close
    have h : (vcBody f).take i ++
          (vcInnerHandler i ++ [Step.shoot "verification/error.png", Step.close])
        = ((vcBody f).take i ++
            (vcInnerHandler i ++ [Step.shoot "verification/error.png"])) ++ [Step.close] := by
      simp [List.append_assoc]
    rw [h]
    exact lastStep_concat _ _
  · unfold vcTrace artifactCount
    rw [List.countP_append, List.countP_append]
    have h : [Step.shoot "verification/error.png", Step.close].countP isShot = 1 := by decide
    omega

/-- Witness for C5 (amended): a raising failure at the search-input wait of
`verify_changes.py` ends with teardown. -/
theorem raising_failure_aborts_witness :
    lastStep (vcTrace happyFlags (some 3)) = some Step.close :=
  (raising_failure_aborts happyFlags 3).2.1

/-- Claim C10: one `verify_track_integration.py` run writes the fixture
test_track.gpx only when no file of that name exists when the guard runs: if
the file exists at scenario start its contents are unchanged by the whole run
(whatever the outcome), and if it is absent and control reaches the guard the
run creates it with the literal GPX fixture content. -/
theorem fixture_write_frame (fs : List (String × String)) (r s : Bool) :
    (∀ c, fsLookup fs gpxPath = some c → fsLookup (vtiRun fs r s) gpxPath = some c)
    ∧ (fsLookup fs gpxPath = none → r = true →
        fsLookup (vtiRun fs r s) gpxPath = some gpxContent) := by
  constructor
  · intro c h
    have hens : (if r then ensureFixture fs else fs) = fs := by
      cases r
      · rfl
      · show ensureFixture fs = fs
        unfold ensureFixture
        rw [h]
    cases s
    · show fsLookup (fsWrite (if r then ensureFixture fs else fs)
          "verification/error.png" "screenshot") gpxPath = some c
      rw [fsLookup_write_ne _ _ _ _ (by decide), hens]
      exact h
    · show fsLookup (fsWrite (if r then ensureFixture fs else fs)
          "verification/track_integration_success.png" "screenshot") gpxPath = some c
      rw [fsLookup_write_ne _ _ _ _ (by decide), hens]
      exact h
  · intro h hr
    subst hr
    have hens : ensureFixture fs = fsWrite fs gpxPath gpxContent := by
      unfold ensureFixture
      rw [h]
    have hlook : fsLookup (fsWrite fs gpxPath gpxContent) gpxPath = some gpxContent := by
      unfold fsLookup fsWrite
      rw [List.find?_cons_of_pos _ (by simp)]
      rfl
    cases s
    · show fsLookup (fsWrite (ensureFixture fs)
          "verification/error.png" "screenshot") gpxPath = some gpxContent
      rw [fsLookup_write_ne _ _ _ _ (by decide), hens]
      exact hlook
    · show fsLookup (fsWrite (ensureFixture fs)
          "verification/track_integration_success.png" "screenshot") gpxPath = some gpxContent
      rw [fsLookup_write_ne _ _ _ _ (by decide), hens]
      exact hlook

/-- Witness for C10: a pre-existing fixture survives a successful run
unchanged, and a missing fixture is created with the GPX content by a failing
run that reached the guard. -/
theorem fixture_write_frame_witness :
    fsLookup (vtiRun [(gpxPath, "preexisting gpx")] true true) gpxPath
      = some "preexisting gpx"
    ∧ fsLookup (vtiRun [] true false) gpxPath = some gpxContent :=
  ⟨(fixture_write_frame [(gpxPath, "preexisting gpx")] true true).1
      "preexisting gpx" (by decide),
   (fixture_write_frame [] true false).2 rfl rfl⟩

end StrataLines
